import Mathlib

/-!
Shallow embedding of the BookHub backend (Express/MongoDB) catalog service:
the book model (`src/bookhub-backend/src/models/Book.js`), the public book
routes (`src/bookhub-backend/src/routes/books.js`: list/filter/paginate,
mark-as-read, rate) and the auth/admin routes
(`src/bookhub-backend/src/routes/auth.js`: register, admin create/update).

Numbers are embedded as `ℚ` (ratings, which JavaScript stores as doubles but
which stay small and exact here) and `ℤ`/`ℕ` (counts, identifiers).
`Math.round` is Mathlib's `round` (both round halves toward +∞).
-/

/-- A book document, after `bookSchema` in `models/Book.js`.  Only the fields
the routes under verification touch are carried; `createdAt` stands for the
mongoose timestamp, `id` for the Mongo `_id`. -/
structure Book where
  id : ℕ
  title : String
  author : String
  description : String
  genre : String
  language : String
  rating : ℚ
  ratingCount : ℤ
  readCount : ℤ
  publishedDate : Option ℤ
  createdAt : ℤ
deriving DecidableEq, Repr

/-- The fixed 16-value `genre` enumeration of `bookSchema`. -/
def genreEnum : List String :=
  ["Fiction", "Non-Fiction", "Science Fiction", "Fantasy",
   "Mystery", "Thriller", "Romance", "Horror", "Biography",
   "History", "Self-Help", "Science", "Technology",
   "Children", "Young Adult", "Other"]

/-- JavaScript `Math.round(x * 10) / 10`, the one-decimal rounding used by the rate
handler (`books.js` line 115). -/
def round1 (x : ℚ) : ℚ := (round (x * 10) : ℚ) / 10

/-- The rating update applied by `POST /api/books/:id/rate`
(`books.js` lines 112-116): incremental running mean, rounded to one
decimal, and `ratingCount` incremented. -/
def applyRating (b : Book) (r : ℚ) : Book :=
  let newRatingCount : ℤ := b.ratingCount + 1
  { b with
    rating := round1 ((b.rating * (b.ratingCount : ℚ) + r) / (newRatingCount : ℚ))
    ratingCount := newRatingCount }

/-- Sequential rating submissions, each one a full rate-endpoint update. -/
def applyRatings (b : Book) (rs : List ℚ) : Book := rs.foldl applyRating b

/-- Arithmetic mean of a list of rationals (the quantity the spec compares
the stored rating against). -/
def mean (rs : List ℚ) : ℚ := rs.sum / (rs.length : ℚ)

/-- An initially unrated book (`rating=0, ratingCount=0, readCount=0`, the
schema defaults). -/
def book0 : Book :=
  { id := 1, title := "B", author := "A", description := "D",
    genre := "Fiction", language := "English",
    rating := 0, ratingCount := 0, readCount := 0,
    publishedDate := none, createdAt := 0 }

/-- Result of `POST /api/books/:id/rate`: the 400 validation branch, the 404
branch, and the 200 branch returning `{ rating, ratingCount }`. -/
inductive RateRes where
  | badRequest (msg : String)
  | notFound
  | ok (rating : ℚ) (ratingCount : ℤ)
deriving DecidableEq, Repr

/-- The rate route handler (`books.js` lines 101-123): validate
`1 <= rating <= 5`, look the book up, apply the rounded running-mean update,
save, and return the new pair.  The store is a list of documents; lookup is
Mongo `findById`. -/
def rateHandler (store : List Book) (bid : ℕ) (r : ℚ) : List Book × RateRes :=
  if r < 1 ∨ 5 < r then (store, .badRequest "Rating must be between 1 and 5")
  else
    match store.find? (fun b => b.id == bid) with
    | none => (store, .notFound)
    | some b =>
        let b' := applyRating b r
        (store.map fun x => if x.id == bid then b' else x, .ok b'.rating b'.ratingCount)

/-- Interleaving state for concurrent requests against one book: the stored
document plus, for each of two in-flight rate requests, the stale copy its
handler captured with `findById` (`books.js` line 109). -/
structure SysState where
  book : Book
  captured1 : Option Book
  captured2 : Option Book
deriving Repr

/-- Atomic events of the handlers under concurrency: `read1`/`read2` are the
`findById` of each in-flight rate request, `write1`/`write2` the `book.save()`
that stores the rating fields computed from the captured copy, and `incr` is
the storage-level atomic `$inc: { readCount: 1 }` of the read endpoint
(`books.js` lines 82-86), a single indivisible event. -/
inductive RStep where
  | read1
  | read2
  | write1
  | write2
  | incr

/-- One interleaved step: rate request 1 submits `r1`, rate request 2
submits `r2`. -/
def rstep (r1 r2 : ℚ) (s : SysState) : RStep → SysState
  | .read1 => { s with captured1 := some s.book }
  | .read2 => { s with captured2 := some s.book }
  | .write1 =>
      match s.captured1 with
      | some c =>
          { s with book :=
              { s.book with
                rating := (applyRating c r1).rating
                ratingCount := (applyRating c r1).ratingCount } }
      | none => s
  | .write2 =>
      match s.captured2 with
      | some c =>
          { s with book :=
              { s.book with
                rating := (applyRating c r2).rating
                ratingCount := (applyRating c r2).ratingCount } }
      | none => s
  | .incr => { s with book := { s.book with readCount := s.book.readCount + 1 } }

/-- Run a schedule of interleaved events. -/
def runSched (r1 r2 : ℚ) (s : SysState) (sched : List RStep) : SysState :=
  sched.foldl (rstep r1 r2) s

/-- JavaScript `String.prototype.trim`, written over the character list so
that concrete instances reduce. -/
def jsTrim (s : String) : String :=
  String.mk (((s.toList.dropWhile Char.isWhitespace).reverse.dropWhile
    Char.isWhitespace).reverse)

/-- A request body for the admin book routes.  `POST /api/admin/books`
spreads the whole body into `Book.create` (`auth.js` admin router), so the
engagement fields can arrive from the client; absent fields take the schema
defaults on create and are left unchanged on update. -/
structure BookBody where
  title : String
  author : String
  description : String
  genre : String
  rating : Option ℚ := none
  ratingCount : Option ℤ := none
  readCount : Option ℤ := none
  language : Option String := none
deriving DecidableEq, Repr

/-- The spec's book invariant: `0 ≤ rating ≤ 5`, `ratingCount ≥ 0`, and
`ratingCount == 0 ⇒ rating == 0`. -/
def bookInvariant (b : Book) : Prop :=
  0 ≤ b.rating ∧ b.rating ≤ 5 ∧ 0 ≤ b.ratingCount ∧ (b.ratingCount = 0 → b.rating = 0)

instance (b : Book) : Decidable (bookInvariant b) := by
  unfold bookInvariant
  infer_instance

/-- Result of the admin create/update routes. -/
inductive CreateRes where
  | badRequest (msg : String)
  | notFound
  | serverError (msg : String)
  | created (b : Book)
deriving DecidableEq, Repr

/-- Mongoose schema validation from `models/Book.js`: required non-empty
strings, `genre` in the enumeration, `rating` within `min: 0, max: 5`.
`ratingCount` and `readCount` carry no bounds in the schema. -/
def schemaValidate (b : Book) : Prop :=
  b.title ≠ "" ∧ b.author ≠ "" ∧ b.description ≠ "" ∧
  b.genre ∈ genreEnum ∧ 0 ≤ b.rating ∧ b.rating ≤ 5

instance (b : Book) : Decidable (schemaValidate b) := by
  unfold schemaValidate
  infer_instance

/-- The document built by `Book.create({...req.body})`: client-supplied
fields win, absent fields take the schema defaults.  The fresh id and the
`createdAt` timestamp are system-assigned (modelled from the store size). -/
def bookOfBody (nextId : ℕ) (body : BookBody) : Book :=
  { id := nextId
    title := jsTrim body.title
    author := jsTrim body.author
    description := jsTrim body.description
    genre := body.genre
    language := body.language.getD "English"
    rating := body.rating.getD 0
    ratingCount := body.ratingCount.getD 0
    readCount := body.readCount.getD 0
    publishedDate := none
    createdAt := nextId }

/-- Route `POST /api/admin/books`: express-validator checks (trimmed title, author,
description non-empty; genre non-empty), then `Book.create` with schema
validation; validation failure surfaces through the catch as a 500. -/
def adminCreate (store : List Book) (body : BookBody) : List Book × CreateRes :=
  if jsTrim body.title = "" then (store, .badRequest "Title is required")
  else if jsTrim body.author = "" then (store, .badRequest "Author is required")
  else if jsTrim body.description = "" then (store, .badRequest "Description is required")
  else if body.genre = "" then (store, .badRequest "Genre is required")
  else
    let b := bookOfBody (store.length + 1) body
    if schemaValidate b then (store ++ [b], .created b)
    else (store, .serverError "Book validation failed")

/-- The update (`$set`) applied by `findByIdAndUpdate(id, req.body)`: fields present
in the body replace the stored ones, absent fields are left unchanged. -/
def applyBodyUpdate (b : Book) (body : BookBody) : Book :=
  { b with
    title := jsTrim body.title
    author := jsTrim body.author
    description := jsTrim body.description
    genre := body.genre
    language := body.language.getD b.language
    rating := body.rating.getD b.rating
    ratingCount := body.ratingCount.getD b.ratingCount
    readCount := body.readCount.getD b.readCount }

/-- Route `PUT /api/admin/books/:id`: same express-validator checks, then
`findByIdAndUpdate` with `runValidators: true`. -/
def adminUpdate (store : List Book) (bid : ℕ) (body : BookBody) :
    List Book × CreateRes :=
  if jsTrim body.title = "" then (store, .badRequest "Title is required")
  else if jsTrim body.author = "" then (store, .badRequest "Author is required")
  else if jsTrim body.description = "" then (store, .badRequest "Description is required")
  else if body.genre = "" then (store, .badRequest "Genre is required")
  else
    match store.find? (fun b => b.id == bid) with
    | none => (store, .notFound)
    | some b =>
        let b' := applyBodyUpdate b body
        if schemaValidate b' then
          (store.map fun x => if x.id == bid then b' else x, .created b')
        else (store, .serverError "Validation failed")

/-- Route `POST /api/books/:id/read` on the stored document: the storage-level
atomic `$inc: { readCount: 1 }`. -/
def applyRead (b : Book) : Book := { b with readCount := b.readCount + 1 }

/-- Case-sensitive character-list prefix test. -/
def leadMatch : List Char → List Char → Bool
  | [], _ => true
  | _ :: _, [] => false
  | a :: as, b :: bs => a == b && leadMatch as bs

/-- Substring occurrence over character lists. -/
def occursIn (needle : List Char) : List Char → Bool
  | [] => needle.isEmpty
  | c :: rest => leadMatch needle (c :: rest) || occursIn needle rest

/-- Lower-cased character list of a string. -/
def lowerChars (s : String) : List Char := s.toList.map Char.toLower

/-- Case-insensitive substring test: models both the `$regex` with option
`i` used for the `author` filter and, per spec section 4.1, the `$text`
index search (the Mongo text index itself lives outside the repository). -/
def containsCI (hay needle : String) : Bool :=
  occursIn (lowerChars needle) (lowerChars hay)

/-- Text search (`$text`) over the indexed fields title, author, description
(`models/Book.js` line 51). -/
def textMatches (s : String) (b : Book) : Bool :=
  containsCI b.title s || containsCI b.author s || containsCI b.description s

/-- Query parameters of `GET /api/books` after extraction with the
destructuring defaults of `books.js` lines 11-16.  `page` and `limit` are
taken here as parsed natural numbers; the raw-string parsing layer is
modelled separately (`rawPageNum`/`rawLimitNum`). -/
structure ListQuery where
  search : Option String := none
  genre : Option String := none
  author : Option String := none
  language : Option String := none
  minRating : Option ℚ := none
  publishedFrom : Option ℤ := none
  publishedTo : Option ℤ := none
  sortBy : String := "createdAt"
  sortOrder : String := "desc"
  page : ℕ := 1
  limit : ℕ := 12
deriving DecidableEq, Repr

/-- The Mongo filter built in `books.js` lines 18-30, as a predicate. -/
def matchesFilter (q : ListQuery) (b : Book) : Bool :=
  (match q.search with | none => true | some s => textMatches s b) &&
  (match q.genre with | none => true | some g => b.genre == g) &&
  (match q.author with | none => true | some a => containsCI b.author a) &&
  (match q.language with | none => true | some l => b.language == l) &&
  (match q.minRating with | none => true | some m => decide (m ≤ b.rating)) &&
  (match q.publishedFrom with
   | none => true
   | some d => match b.publishedDate with | some p => decide (d ≤ p) | none => false) &&
  (match q.publishedTo with
   | none => true
   | some d => match b.publishedDate with | some p => decide (p ≤ d) | none => false)

/-- Three-way comparison on rationals. -/
def qOrd (x y : ℚ) : Ordering :=
  if x < y then .lt else if y < x then .gt else .eq

/-- Three-way comparison on integers. -/
def zOrd (x y : ℤ) : Ordering :=
  if x < y then .lt else if y < x then .gt else .eq

/-- Three-way comparison on strings. -/
def sOrd (x y : String) : Ordering :=
  if x < y then .lt else if y < x then .gt else .eq

/-- Three-way comparison on optional dates: a missing `publishedDate`
sorts before any present one, as in Mongo ascending order. -/
def optZOrd : Option ℤ → Option ℤ → Ordering
  | none, none => .eq
  | none, some _ => .lt
  | some _, none => .gt
  | some x, some y => zOrd x y

/-- Comparison on the single `sortBy` field, the only key the handler puts
into `sortOptions` (`books.js` lines 32-33).  A `sortBy` naming no stored
field compares everything equal (every document lacks the field). -/
def fieldCmp (sortBy : String) (a b : Book) : Ordering :=
  if sortBy == "rating" then qOrd a.rating b.rating
  else if sortBy == "readCount" then zOrd a.readCount b.readCount
  else if sortBy == "title" then sOrd a.title b.title
  else if sortBy == "publishedDate" then optZOrd a.publishedDate b.publishedDate
  else if sortBy == "createdAt" then zOrd a.createdAt b.createdAt
  else .eq

/-- Directioned comparison: `sortOrder === 'asc' ? 1 : -1`; any other value
(including the default) means descending. -/
def sortCmp (q : ListQuery) (a b : Book) : Ordering :=
  if q.sortOrder == "asc" then fieldCmp q.sortBy a b
  else (fieldCmp q.sortBy a b).swap

/-- An admissible result of `Book.find(filter).sort(sortOptions)`: any
permutation of the filtered store that is ordered on the single sort key.
MongoDB does not specify the relative order of documents whose sort-key
values tie, so the database's answer is a relation, not a function. -/
def admissibleResult (q : ListQuery) (store res : List Book) : Prop :=
  res.Perm (store.filter (matchesFilter q)) ∧
  res.Pairwise (fun a b => sortCmp q a b ≠ .gt)

instance (q : ListQuery) (store res : List Book) :
    Decidable (admissibleResult q store res) := by
  unfold admissibleResult
  infer_instance

/-- The JSON response of `GET /api/books` (`books.js` lines 44-52). -/
structure ListResponse where
  books : List Book
  total : ℕ
  page : ℕ
  limit : ℕ
  totalPages : ℤ

/-- Computation `Math.max(1, parseInt(page))` for an already-numeric page. -/
def pageNumQ (q : ListQuery) : ℕ := max 1 q.page

/-- Computation `Math.min(50, Math.max(1, parseInt(limit)))` for an
already-numeric limit. -/
def limitNumQ (q : ListQuery) : ℕ := min 50 (max 1 q.limit)

/-- The list handler (`books.js` lines 9-56) given the database's sorted
result `res` for its filter: `skip`/`limit` pagination over `res`, exact
`countDocuments` total over the store, `Math.ceil` page count. -/
def listHandler (q : ListQuery) (store res : List Book) : ListResponse :=
  let pageNum := pageNumQ q
  let limitNum := limitNumQ q
  let skip := (pageNum - 1) * limitNum
  let total := (store.filter (matchesFilter q)).length
  { books := (res.drop skip).take limitNum
    total := total
    page := pageNum
    limit := limitNum
    totalPages := ⌈(total : ℚ) / (limitNum : ℚ)⌉ }

/-- A concrete book used in witnesses: `createdAt 2`, rating 3. -/
def bk1 : Book :=
  { id := 1, title := "Alpha", author := "A1", description := "D1",
    genre := "Fiction", language := "English",
    rating := 3, ratingCount := 1, readCount := 0,
    publishedDate := none, createdAt := 2 }

/-- A second concrete book: `createdAt 1`, the same rating 3 (a sort tie on
`rating`). -/
def bk2 : Book :=
  { id := 2, title := "Beta", author := "A2", description := "D2",
    genre := "Fantasy", language := "English",
    rating := 3, ratingCount := 1, readCount := 0,
    publishedDate := none, createdAt := 1 }

/-- The all-defaults list query. -/
def qDefault : ListQuery := {}

/-- A query sorting by `rating` (on which `bk1` and `bk2` tie). -/
def qRate : ListQuery := { sortBy := "rating" }

/-- The same rating sort with `limit = 1`, so the first page holds exactly
the first record of the database's chosen order. -/
def qRateL1 : ListQuery := { sortBy := "rating", limit := 1 }

/-- A query whose genre is not in the enumeration. -/
def qBadGenre : ListQuery := { genre := some "Poetry" }

/-- A JavaScript number as produced by the pagination parsing: `NaN` or an
integer. -/
inductive JNum where
  | nan
  | num (z : ℤ)
deriving DecidableEq, Repr

/-- JavaScript `Math.max(a, x)`: `NaN` when any argument is `NaN`. -/
def jsMax (a : ℤ) : JNum → JNum
  | .nan => .nan
  | .num z => .num (max a z)

/-- JavaScript `Math.min(a, x)`: `NaN` when any argument is `NaN`. -/
def jsMin (a : ℤ) : JNum → JNum
  | .nan => .nan
  | .num z => .num (min a z)

/-- Value of a decimal digit run. -/
def digitsVal (ds : List Char) : ℕ :=
  ds.foldl (fun acc c => acc * 10 + (c.toNat - Char.toNat '0')) 0

/-- ECMAScript `parseInt` at radix 10: trim, optional sign, longest leading
digit run; `NaN` when no digits are found. -/
def parseIntJs (s : String) : JNum :=
  let cs := (jsTrim s).toList
  let signRest : ℤ × List Char :=
    match cs with
    | '-' :: r => (-1, r)
    | '+' :: r => (1, r)
    | r => (1, r)
  let ds := signRest.2.takeWhile Char.isDigit
  if ds.isEmpty then .nan else .num (signRest.1 * (digitsVal ds : ℤ))

/-- Computation `Math.max(1, parseInt(page))` from `books.js` line 35 on the raw query
value; an absent parameter takes the destructuring default `1` (which
`parseInt` maps to 1). -/
def rawPageNum (page : Option String) : JNum :=
  jsMax 1 (match page with | none => .num 1 | some s => parseIntJs s)

/-- Computation `Math.min(50, Math.max(1, parseInt(limit)))` from `books.js` line 36;
an absent parameter takes the destructuring default `12`. -/
def rawLimitNum (limit : Option String) : JNum :=
  jsMin 50 (jsMax 1 (match limit with | none => .num 12 | some s => parseIntJs s))

/-- A user document (`models/User.js` is only consumed here through the
fields the register route touches). -/
structure User where
  id : ℕ
  name : String
  email : String
  password : String
  role : String
deriving DecidableEq, Repr

/-- Result of `POST /api/auth/register`. -/
inductive RegisterRes where
  | badRequest (msg : String)
  | created (u : User)
deriving DecidableEq, Repr

/-- Simplified model of the external `validator.isEmail` check that
express-validator applies (library code, not part of this repository): the
value must contain an `@`.  None of the claims settled here depend on the
exact e-mail grammar. -/
def isEmailLike (s : String) : Bool := s.toList.contains '@'

/-- Route `POST /api/auth/register` (`auth.js` lines 15-47): the validator chain
(trimmed non-empty name, e-mail shape, password of at least 6 characters,
first failure answered 400), then the duplicate-email lookup answered with
HTTP 400 `'Email already in use.'`, then creation with
`role === 'admin' ? 'admin' : 'user'` taken from the request body. -/
def registerHandler (users : List User) (name email password : String)
    (role : Option String) : List User × RegisterRes :=
  if jsTrim name = "" then (users, .badRequest "Name is required")
  else if ¬ isEmailLike email then (users, .badRequest "Valid email is required")
  else if password.length < 6 then
    (users, .badRequest "Password must be at least 6 characters")
  else if users.any (fun u => u.email == email) then
    (users, .badRequest "Email already in use.")
  else
    let u : User :=
      { id := users.length + 1
        name := jsTrim name
        email := email
        password := password
        role := if role = some "admin" then "admin" else "user" }
    (users ++ [u], .created u)

/-- HTTP status attached to a register response: 201 on creation; every
failure branch of the handler, the duplicate e-mail included, answers 400
(`auth.js` line 33 — not 409). -/
def registerStatus : RegisterRes → ℕ
  | .badRequest _ => 400
  | .created _ => 201

/-- An existing registered user. -/
def user0 : User :=
  { id := 1, name := "Alice", email := "a@b.com", password := "secret1",
    role := "user" }

/-- C1: for an existing book and a submitted rating `1 <= r <= 5`, the rate
endpoint stores `round1((oldRating * oldCount + r) / (oldCount + 1))` as the
new rating, increments `ratingCount`, and returns the new
`(rating, ratingCount)` pair. -/
theorem rate_endpoint_updates_running_mean
    (store : List Book) (bid : ℕ) (r : ℚ) (b : Book)
    (hfind : store.find? (fun x => x.id == bid) = some b)
    (h1 : 1 ≤ r) (h5 : r ≤ 5) :
    (rateHandler store bid r).2 =
      RateRes.ok
        (round1 ((b.rating * (b.ratingCount : ℚ) + r) / ((b.ratingCount : ℚ) + 1)))
        (b.ratingCount + 1) ∧
    applyRating b r ∈ (rateHandler store bid r).1 := by
  have hcond : ¬ (r < 1 ∨ 5 < r) := by push_neg; exact ⟨h1, h5⟩
  have hb : b ∈ store := List.mem_of_find?_eq_some hfind
  have hpb := List.find?_some hfind
  constructor
  · simp only [rateHandler, if_neg hcond, hfind]
    simp only [applyRating, RateRes.ok.injEq]
    constructor
    · push_cast
      ring_nf
    · trivial
  · simp only [rateHandler, if_neg hcond, hfind]
    exact List.mem_map.mpr ⟨b, hb, by simp only [hpb, if_true]⟩

/-- Witness for C1 at a concrete store: book `book0`, rating 4. -/
theorem rate_endpoint_updates_running_mean_witness :
    ([book0].find? (fun x => x.id == 1) = some book0) ∧ (1 : ℚ) ≤ 4 ∧ (4 : ℚ) ≤ 5 ∧
    ((rateHandler [book0] 1 4).2 =
      RateRes.ok
        (round1 ((book0.rating * (book0.ratingCount : ℚ) + 4) / ((book0.ratingCount : ℚ) + 1)))
        (book0.ratingCount + 1) ∧
     applyRating book0 4 ∈ (rateHandler [book0] 1 4).1) :=
  ⟨rfl, by norm_num, by norm_num,
    rate_endpoint_updates_running_mean [book0] 1 4 book0 rfl (by norm_num) (by norm_num)⟩

/-- C2 fails: sequential ratings are each rounded before being folded into
the next update, so the stored rating is not `round1(mean)` and depends on
submission order.  Ratings `[1,1,2,1]` yield `1.2` while
`round1(mean) = 1.3`, and the permutation `[1,1,1,2]` yields `1.3`. -/
theorem seq_ratings_not_rounded_mean_counterexample :
    (applyRatings book0 [1, 1, 2, 1]).rating ≠ round1 (mean [1, 1, 2, 1]) ∧
    (applyRatings book0 [1, 1, 2, 1]).rating ≠ (applyRatings book0 [1, 1, 1, 2]).rating := by
  constructor <;> norm_num [applyRatings, applyRating, book0, round1, round_eq, mean]

/-- C2 amended: after n sequential rating submissions `ratingCount` equals n
(starting from any book), but the stored rating is the fold of the
per-submission rounded update, which can differ from `round1(mean)` and can
depend on submission order; on the spec's example sequence 5, 3, 4 the
intermediate means are exactly representable and the result is
`rating = 4.0`, `ratingCount = 3`. -/
theorem seq_ratings_count_and_example :
    (∀ (b : Book) (rs : List ℚ),
      (applyRatings b rs).ratingCount = b.ratingCount + rs.length) ∧
    (applyRatings book0 [5, 3, 4]).rating = 4 ∧
    (applyRatings book0 [5, 3, 4]).ratingCount = 3 := by
  refine ⟨?_, ?_, ?_⟩
  · intro b rs
    induction rs generalizing b with
    | nil => simp [applyRatings]
    | cons r t ih =>
        have hstep : applyRatings b (r :: t) = applyRatings (applyRating b r) t := rfl
        rw [hstep, ih (applyRating b r)]
        simp only [applyRating, List.length_cons]
        push_cast
        ring
  · norm_num [applyRatings, applyRating, book0, round1, round_eq]
  · norm_num [applyRatings, applyRating, book0, round1, round_eq]

/-- C5 at the failing input: `readCount` increments are atomic events, so a
schedule of N of them always adds N; but the rate endpoint's read-modify-write
is two separate events, and the interleaving read1; read2; write1; write2 of
two rate requests (5 and 3) against a fresh book leaves
`(rating, ratingCount) = (3, 1)` — the first rating is lost, where
serialization would give `(4.0, 2)`. -/
theorem concurrent_rating_lost_update :
    (∀ (r1 r2 : ℚ) (s : SysState) (n : ℕ),
      (runSched r1 r2 s (List.replicate n RStep.incr)).book.readCount =
        s.book.readCount + n) ∧
    (runSched 5 3 ⟨book0, none, none⟩
      [RStep.read1, RStep.read2, RStep.write1, RStep.write2]).book.ratingCount = 1 ∧
    (runSched 5 3 ⟨book0, none, none⟩
      [RStep.read1, RStep.read2, RStep.write1, RStep.write2]).book.rating = 3 := by
  refine ⟨?_, ?_, ?_⟩
  · intro r1 r2 s n
    induction n generalizing s with
    | zero => simp [runSched]
    | succ n ih =>
        rw [List.replicate_succ]
        have hstep : runSched r1 r2 s (RStep.incr :: List.replicate n RStep.incr) =
            runSched r1 r2 (rstep r1 r2 s RStep.incr) (List.replicate n RStep.incr) := rfl
        rw [hstep, ih (rstep r1 r2 s RStep.incr)]
        simp only [rstep]
        push_cast
        ring
  · norm_num [runSched, rstep, applyRating, book0, round1, round_eq]
  · norm_num [runSched, rstep, applyRating, book0, round1, round_eq]

/-- Helper: one-decimal rounding keeps a value of `[0, 5]` inside `[0, 5]`. -/
theorem round1_mem_Icc {x : ℚ} (h0 : 0 ≤ x) (h5 : x ≤ 5) :
    0 ≤ round1 x ∧ round1 x ≤ 5 := by
  unfold round1
  constructor
  · apply div_nonneg _ (by norm_num)
    have hz : (0 : ℤ) ≤ round (x * 10) := by
      rw [round_eq]
      refine Int.le_floor.mpr ?_
      push_cast
      linarith
    exact_mod_cast hz
  · rw [div_le_iff₀ (by norm_num)]
    have hz : round (x * 10) ≤ 50 := by
      rw [round_eq]
      have hlt : ⌊x * 10 + 1 / 2⌋ < 51 := Int.floor_lt.mpr (by push_cast; linarith)
      omega
    calc ((round (x * 10) : ℤ) : ℚ) ≤ ((50 : ℤ) : ℚ) := by exact_mod_cast hz
    _ = 5 * 10 := by norm_num

/-- C6 fails: the admin create route spreads the client body into
`Book.create`, so a body carrying `rating: 4` (and no `ratingCount`) passes
every validation (4 is within the schema's `[0,5]`) and produces a book with
`rating = 4` and `ratingCount = 0`, violating
`ratingCount == 0 ⇒ rating == 0`. -/
theorem book_invariant_creation_counterexample :
    (adminCreate [] ⟨"T", "A", "D", "Fiction", some 4, none, none, none⟩).2 =
      CreateRes.created (bookOfBody 1 ⟨"T", "A", "D", "Fiction", some 4, none, none, none⟩) ∧
    ¬ bookInvariant (bookOfBody 1 ⟨"T", "A", "D", "Fiction", some 4, none, none, none⟩) := by
  constructor
  · decide
  · decide

/-- C6 amended: the invariant is preserved by the rating and read-count
endpoints, and a created book always satisfies the schema bounds
`0 ≤ rating ≤ 5`; a body with no engagement fields creates a book satisfying
the full invariant.  (Create/update bodies that do carry engagement fields
can break `ratingCount == 0 ⇒ rating == 0`, per the counterexample.) -/
theorem book_invariant_amended
    (b : Book) (r : ℚ)
    (hb : bookInvariant b) (h1 : 1 ≤ r) (h5 : r ≤ 5) :
    bookInvariant (applyRating b r) ∧
    bookInvariant (applyRead b) ∧
    (∀ (store res : List Book) (body : BookBody) (b' : Book),
      adminCreate store body = (res, CreateRes.created b') →
      (0 ≤ b'.rating ∧ b'.rating ≤ 5) ∧
      (body.rating = none → body.ratingCount = none → bookInvariant b')) := by
  obtain ⟨hr0, hr5, hc0, himp⟩ := hb
  refine ⟨?_, ?_, ?_⟩
  · have hcQ : (0 : ℚ) ≤ (b.ratingCount : ℚ) := by exact_mod_cast hc0
    have hden : (0 : ℚ) < (b.ratingCount : ℚ) + 1 := by linarith
    have hx0 : 0 ≤ (b.rating * (b.ratingCount : ℚ) + r) / ((b.ratingCount : ℚ) + 1) := by
      apply div_nonneg _ (le_of_lt hden)
      have : 0 ≤ b.rating * (b.ratingCount : ℚ) := mul_nonneg hr0 hcQ
      linarith
    have hx5 : (b.rating * (b.ratingCount : ℚ) + r) / ((b.ratingCount : ℚ) + 1) ≤ 5 := by
      rw [div_le_iff₀ hden]
      have : b.rating * (b.ratingCount : ℚ) ≤ 5 * (b.ratingCount : ℚ) :=
        mul_le_mul_of_nonneg_right hr5 hcQ
      linarith
    have hrnd := round1_mem_Icc hx0 hx5
    refine ⟨?_, ?_, ?_, ?_⟩
    · simpa only [applyRating] using
        (by push_cast; exact hrnd.1 :
          0 ≤ round1 ((b.rating * (b.ratingCount : ℚ) + r) / (((b.ratingCount + 1 : ℤ)) : ℚ)))
    · simpa only [applyRating] using
        (by push_cast; exact hrnd.2 :
          round1 ((b.rating * (b.ratingCount : ℚ) + r) / (((b.ratingCount + 1 : ℤ)) : ℚ)) ≤ 5)
    · simp only [applyRating]
      omega
    · simp only [applyRating]
      intro hcontr
      omega
  · exact ⟨hr0, hr5, hc0, himp⟩
  · intro store res body b' hcr
    simp only [adminCreate] at hcr
    split_ifs at hcr with ht ha hd hg hval
    · exact absurd (congrArg Prod.snd hcr) (by simp)
    · exact absurd (congrArg Prod.snd hcr) (by simp)
    · exact absurd (congrArg Prod.snd hcr) (by simp)
    · exact absurd (congrArg Prod.snd hcr) (by simp)
    · have hb' : bookOfBody (store.length + 1) body = b' := by
        have := congrArg Prod.snd hcr
        simpa using this
      subst hb'
      refine ⟨⟨hval.2.2.2.2.1, hval.2.2.2.2.2⟩, ?_⟩
      intro hrn hcn
      simp [bookInvariant, bookOfBody, hrn, hcn]
    · exact absurd (congrArg Prod.snd hcr) (by simp)

/-- Witness for the amended C6 at `book0` and rating 3. -/
theorem book_invariant_amended_witness :
    bookInvariant book0 ∧ (1 : ℚ) ≤ 3 ∧ (3 : ℚ) ≤ 5 ∧
    (bookInvariant (applyRating book0 3) ∧
     bookInvariant (applyRead book0) ∧
     (∀ (store res : List Book) (body : BookBody) (b' : Book),
        adminCreate store body = (res, CreateRes.created b') →
        (0 ≤ b'.rating ∧ b'.rating ≤ 5) ∧
        (body.rating = none → body.ratingCount = none → bookInvariant b'))) :=
  ⟨by decide, by norm_num, by norm_num,
    book_invariant_amended book0 3 (by decide) (by norm_num) (by norm_num)⟩

/-- C3: with valid `page` and `limit`, the returned page holds exactly
`min(limit, total - skip)` items, `total` is the exact filtered count
independent of pagination, `totalPages` is the rational ceiling of
`total / limit`, and a page beyond `totalPages` yields an empty item list. -/
theorem list_pagination_correct (q : ListQuery) (store res : List Book)
    (hadm : admissibleResult q store res) (hp : 1 ≤ q.page) (hl : 1 ≤ q.limit) :
    (listHandler q store res).books.length =
      min (limitNumQ q)
        ((store.filter (matchesFilter q)).length - (q.page - 1) * limitNumQ q) ∧
    (listHandler q store res).total = (store.filter (matchesFilter q)).length ∧
    (listHandler q store res).totalPages =
      ⌈(((store.filter (matchesFilter q)).length : ℚ)) / ((limitNumQ q : ℚ))⌉ ∧
    ((q.page : ℤ) > (listHandler q store res).totalPages →
      (listHandler q store res).books = []) := by
  have hres : res.length = (store.filter (matchesFilter q)).length := hadm.1.length_eq
  have hpage : pageNumQ q = q.page := by
    unfold pageNumQ
    exact Nat.max_eq_right hp
  have hk1 : 1 ≤ limitNumQ q := by unfold limitNumQ; omega
  refine ⟨?_, rfl, rfl, ?_⟩
  · simp only [listHandler, List.length_take, List.length_drop, hres, hpage]
  · intro hgt
    simp only [listHandler, hpage] at hgt ⊢
    set N := (store.filter (matchesFilter q)).length with hN
    set k := limitNumQ q with hk
    have hkQ : (0 : ℚ) < (k : ℚ) := by exact_mod_cast hk1
    have hk0 : (k : ℚ) ≠ 0 := ne_of_gt hkQ
    have h1 : (N : ℚ) / (k : ℚ) ≤ (⌈(N : ℚ) / (k : ℚ)⌉ : ℚ) := Int.le_ceil _
    have hceil0 : (N : ℚ) ≤ (⌈(N : ℚ) / (k : ℚ)⌉ : ℚ) * (k : ℚ) :=
      calc (N : ℚ) = (N : ℚ) / (k : ℚ) * (k : ℚ) := (div_mul_cancel₀ _ hk0).symm
        _ ≤ (⌈(N : ℚ) / (k : ℚ)⌉ : ℚ) * (k : ℚ) :=
            mul_le_mul_of_nonneg_right h1 (le_of_lt hkQ)
    have hpg : (⌈(N : ℚ) / (k : ℚ)⌉ : ℤ) ≤ (q.page : ℤ) - 1 := by omega
    have hNle : ((N : ℕ) : ℤ) ≤ ((q.page : ℤ) - 1) * (k : ℤ) := by
      have h2 : ((N : ℕ) : ℚ) ≤ (((q.page : ℤ) - 1 : ℤ) : ℚ) * ((k : ℤ) : ℚ) := by
        refine le_trans hceil0 ?_
        apply mul_le_mul_of_nonneg_right _ (le_of_lt hkQ)
        exact_mod_cast hpg
      exact_mod_cast h2
    have hcast : (((q.page - 1) * k : ℕ) : ℤ) = ((q.page : ℤ) - 1) * (k : ℤ) := by
      push_cast [hp]
      ring
    have hskip : N ≤ (q.page - 1) * k := by
      have h3 := hNle
      rw [← hcast] at h3
      exact_mod_cast h3
    have hdrop : res.drop ((q.page - 1) * k) = [] :=
      List.drop_eq_nil_of_le (le_trans (le_of_eq hres) hskip)
    rw [hdrop, List.take_nil]

/-- Witness for C3: the default query over a two-book store. -/
theorem list_pagination_correct_witness :
    admissibleResult qDefault [bk1, bk2] [bk1, bk2] ∧
    1 ≤ qDefault.page ∧ 1 ≤ qDefault.limit ∧
    ((listHandler qDefault [bk1, bk2] [bk1, bk2]).books.length =
       min (limitNumQ qDefault)
         ((([bk1, bk2] : List Book).filter (matchesFilter qDefault)).length -
           (qDefault.page - 1) * limitNumQ qDefault) ∧
     (listHandler qDefault [bk1, bk2] [bk1, bk2]).total =
       (([bk1, bk2] : List Book).filter (matchesFilter qDefault)).length ∧
     (listHandler qDefault [bk1, bk2] [bk1, bk2]).totalPages =
       ⌈((([bk1, bk2] : List Book).filter (matchesFilter qDefault)).length : ℚ) /
         ((limitNumQ qDefault : ℚ))⌉ ∧
     ((qDefault.page : ℤ) > (listHandler qDefault [bk1, bk2] [bk1, bk2]).totalPages →
       (listHandler qDefault [bk1, bk2] [bk1, bk2]).books = [])) :=
  ⟨by decide, by decide, by decide,
    list_pagination_correct qDefault [bk1, bk2] [bk1, bk2] (by decide) (by decide) (by decide)⟩

/-- C4 fails: sorting by `rating`, on which `bk1` (id 1) and `bk2` (id 2)
tie, the database may return the tied records with ids descending — that
result is a permutation of the filtered store ordered on the single sort
key the handler requests, yet its ordering does not break the tie by
identifier ascending. -/
theorem sort_tiebreak_counterexample :
    admissibleResult qRate [bk1, bk2] [bk2, bk1] ∧
    ¬ ([bk2, bk1].Pairwise (fun a b : Book => a.id ≤ b.id)) := by
  exact ⟨by decide, by decide⟩

/-- C4 amended: the handler's sort specification holds only the `sortBy`
key with no `_id` tie-break, so both orders of tied records are admissible
database answers and the first page of a `limit = 1` query differs between
them — repeated identical queries are not guaranteed to enumerate pages
deterministically. -/
theorem sort_no_tiebreak_nondeterministic :
    admissibleResult qRate [bk1, bk2] [bk1, bk2] ∧
    admissibleResult qRate [bk1, bk2] [bk2, bk1] ∧
    ([bk1, bk2] : List Book) ≠ [bk2, bk1] ∧
    (listHandler qRateL1 [bk1, bk2] [bk1, bk2]).books ≠
      (listHandler qRateL1 [bk1, bk2] [bk2, bk1]).books := by
  exact ⟨by decide, by decide, by decide, by decide⟩

/-- C7 fails: a genre outside the enumeration is not rejected — the handler
builds an equality filter from it and answers 200 with an empty page
(`"Poetry"` matches no stored book) instead of a validation error. -/
theorem invalid_genre_not_rejected_counterexample :
    "Poetry" ∉ genreEnum ∧
    admissibleResult qBadGenre [bk1, bk2] [] ∧
    (listHandler qBadGenre [bk1, bk2] []).books = [] ∧
    (listHandler qBadGenre [bk1, bk2] []).total = 0 := by
  exact ⟨by decide, by decide, by decide, by decide⟩

/-- C7 amended: for any query whose genre lies outside the enumeration,
against a store whose books all carry enumeration genres, the list handler
succeeds and returns an empty item list with `total = 0` (no validation
error is raised anywhere in the route). -/
theorem invalid_genre_filters_empty (q : ListQuery) (g : String) (store res : List Book)
    (hg : q.genre = some g) (hnotin : g ∉ genreEnum)
    (hstore : ∀ b ∈ store, b.genre ∈ genreEnum)
    (hadm : admissibleResult q store res) :
    (listHandler q store res).books = [] ∧ (listHandler q store res).total = 0 := by
  have hfilter : store.filter (matchesFilter q) = [] := by
    refine List.filter_eq_nil_iff.mpr ?_
    intro b hb
    have hfailg : b.genre ≠ g := fun h => hnotin (h ▸ hstore b hb)
    intro hcontra
    apply hfailg
    simp only [matchesFilter, hg, Bool.and_eq_true, beq_iff_eq] at hcontra
    tauto
  have hresnil : res = [] := by
    have hperm := hadm.1
    rw [hfilter] at hperm
    exact hperm.eq_nil
  constructor
  · simp [listHandler, hresnil]
  · simp [listHandler, hfilter]

/-- Witness for the amended C7: genre `"Poetry"` against the two-book
store. -/
theorem invalid_genre_filters_empty_witness :
    qBadGenre.genre = some "Poetry" ∧ "Poetry" ∉ genreEnum ∧
    (∀ b ∈ [bk1, bk2], b.genre ∈ genreEnum) ∧
    admissibleResult qBadGenre [bk1, bk2] [] ∧
    ((listHandler qBadGenre [bk1, bk2] []).books = [] ∧
     (listHandler qBadGenre [bk1, bk2] []).total = 0) :=
  ⟨rfl, by decide, by decide, by decide,
    invalid_genre_filters_empty qBadGenre "Poetry" [bk1, bk2] []
      rfl (by decide) (by decide) (by decide)⟩

/-- C8 fails: a non-numeric `page` or `limit` is not coerced to its
default — `parseInt` yields `NaN` and `Math.max`/`Math.min` propagate it,
so the computed pagination values are `NaN`, not 1 and 12. -/
theorem nonnumeric_page_nan_counterexample :
    rawPageNum (some "abc") = JNum.nan ∧ JNum.nan ≠ JNum.num 1 ∧
    rawLimitNum (some "abc") = JNum.nan ∧ JNum.nan ≠ JNum.num 12 := by
  exact ⟨by decide, by decide, by decide, by decide⟩

/-- C8 amended: an absent `page`/`limit` takes the defaults 1 and 12; for
EVERY raw value that `parseInt` reads as a number `z`, the computed page is
`max 1 z` and the computed limit `min 50 (max 1 z)` — so every numeric
limit above the cap 50 is clamped to 50 and every one below 1 raised to 1,
never rejected, and every page of at least 1 passes through unchanged; and
for EVERY raw value `parseInt` cannot read (`NaN`), both computed
pagination values are `NaN`, not the defaults. -/
theorem page_limit_parsing_behavior :
    rawPageNum none = JNum.num 1 ∧
    rawLimitNum none = JNum.num 12 ∧
    (∀ (s : String) (z : ℤ), parseIntJs s = JNum.num z →
      rawPageNum (some s) = JNum.num (max 1 z) ∧
      rawLimitNum (some s) = JNum.num (min 50 (max 1 z)) ∧
      (50 < z → rawLimitNum (some s) = JNum.num 50) ∧
      (z < 1 → rawLimitNum (some s) = JNum.num 1) ∧
      (1 ≤ z → rawPageNum (some s) = JNum.num z)) ∧
    (∀ s : String, parseIntJs s = JNum.nan →
      rawPageNum (some s) = JNum.nan ∧ rawLimitNum (some s) = JNum.nan) := by
  refine ⟨by decide, by decide, ?_, ?_⟩
  · intro s z hz
    refine ⟨?_, ?_, ?_, ?_, ?_⟩
    · simp [rawPageNum, hz, jsMax]
    · simp [rawLimitNum, hz, jsMax, jsMin]
    · intro h50
      simp only [rawLimitNum, hz, jsMax, jsMin, JNum.num.injEq]
      omega
    · intro h1
      simp only [rawLimitNum, hz, jsMax, jsMin, JNum.num.injEq]
      omega
    · intro h1
      simp only [rawPageNum, hz, jsMax, JNum.num.injEq]
      omega
  · intro s hs
    exact ⟨by simp [rawPageNum, hs, jsMax], by simp [rawLimitNum, hs, jsMax, jsMin]⟩

/-- Witness for the amended C8, applying the universal statements at the
numeric limit `"100"` (above the cap) and the non-numeric value `"abc"`. -/
theorem page_limit_parsing_behavior_witness :
    parseIntJs "100" = JNum.num 100 ∧ (50 : ℤ) < 100 ∧
    rawLimitNum (some "100") = JNum.num 50 ∧
    parseIntJs "abc" = JNum.nan ∧
    rawPageNum (some "abc") = JNum.nan ∧ rawLimitNum (some "abc") = JNum.nan :=
  ⟨by decide, by decide,
    (page_limit_parsing_behavior.2.2.1 "100" 100 (by decide)).2.2.1 (by decide),
    by decide,
    (page_limit_parsing_behavior.2.2.2 "abc" (by decide)).1,
    (page_limit_parsing_behavior.2.2.2 "abc" (by decide)).2⟩

/-- C9 fails on the status code: registering with an e-mail that is already
taken answers HTTP 400 (`'Email already in use.'`), not 409, and creates no
user. -/
theorem duplicate_email_status_counterexample :
    registerStatus (registerHandler [user0] "Bob" "a@b.com" "longpass" none).2 = 400 ∧
    registerStatus (registerHandler [user0] "Bob" "a@b.com" "longpass" none).2 ≠ 409 ∧
    (registerHandler [user0] "Bob" "a@b.com" "longpass" none).1 = [user0] := by
  exact ⟨by decide, by decide, by decide⟩

/-- C9 amended: for every otherwise-valid registration whose e-mail equals
that of an existing user, the operation fails with HTTP status 400 and the
message `'Email already in use.'`, and the user store is unchanged. -/
theorem duplicate_email_rejected_400 (users : List User)
    (name email password : String) (role : Option String)
    (hn : jsTrim name ≠ "") (he : isEmailLike email = true)
    (hpw : 6 ≤ password.length)
    (hdup : ∃ u ∈ users, u.email = email) :
    registerHandler users name email password role =
      (users, RegisterRes.badRequest "Email already in use.") ∧
    registerStatus (registerHandler users name email password role).2 = 400 := by
  have hany : users.any (fun u => u.email == email) = true := by
    obtain ⟨u, hu, hue⟩ := hdup
    exact List.any_eq_true.mpr ⟨u, hu, by simp [hue]⟩
  unfold registerHandler
  rw [if_neg hn, if_neg (by simp [he]), if_neg (by omega), if_pos hany]
  exact ⟨rfl, rfl⟩

/-- Witness for the amended C9: a second registration with `user0`'s
e-mail. -/
theorem duplicate_email_rejected_400_witness :
    jsTrim "Bob" ≠ "" ∧ isEmailLike "a@b.com" = true ∧
    6 ≤ ("longpass" : String).length ∧ (∃ u ∈ [user0], u.email = "a@b.com") ∧
    (registerHandler [user0] "Bob" "a@b.com" "longpass" none =
      ([user0], RegisterRes.badRequest "Email already in use.") ∧
     registerStatus (registerHandler [user0] "Bob" "a@b.com" "longpass" none).2 = 400) :=
  ⟨by decide, by decide, by decide, by decide,
    duplicate_email_rejected_400 [user0] "Bob" "a@b.com" "longpass" none
      (by decide) (by decide) (by decide) (by decide)⟩

/-- C10: the register route reads `role` from the unauthenticated request
body; the created user's role is `'admin'` exactly when the body carries
`role == 'admin'`, and `'user'` for every other value. -/
theorem register_role_from_body (users : List User)
    (name email password : String) (role : Option String)
    (hn : jsTrim name ≠ "") (he : isEmailLike email = true)
    (hpw : 6 ≤ password.length)
    (hfresh : ∀ u ∈ users, u.email ≠ email) :
    (registerHandler users name email password role).2 =
      RegisterRes.created
        { id := users.length + 1
          name := jsTrim name
          email := email
          password := password
          role := if role = some "admin" then "admin" else "user" } ∧
    (registerHandler users name email password role).1 =
      users ++
        [{ id := users.length + 1
           name := jsTrim name
           email := email
           password := password
           role := if role = some "admin" then "admin" else "user" }] := by
  have hany : users.any (fun u => u.email == email) = false := by
    refine List.any_eq_false.mpr ?_
    intro u hu
    simp [hfresh u hu]
  unfold registerHandler
  rw [if_neg hn, if_neg (by simp [he]), if_neg (by omega), if_neg (by simp [hany])]
  exact ⟨rfl, rfl⟩

/-- Witness for C10: an unauthenticated registration carrying
`role: 'admin'` on an empty user store yields an admin account. -/
theorem register_role_from_body_witness :
    jsTrim "Mallory" ≠ "" ∧ isEmailLike "m@e.vil" = true ∧
    6 ≤ ("hunter22" : String).length ∧ (∀ u ∈ ([] : List User), u.email ≠ "m@e.vil") ∧
    ((registerHandler [] "Mallory" "m@e.vil" "hunter22" (some "admin")).2 =
      RegisterRes.created
        { id := 1, name := jsTrim "Mallory", email := "m@e.vil",
          password := "hunter22",
          role := if (some "admin" : Option String) = some "admin" then "admin" else "user" } ∧
     (registerHandler [] "Mallory" "m@e.vil" "hunter22" (some "admin")).1 =
      [{ id := 1, name := jsTrim "Mallory", email := "m@e.vil",
         password := "hunter22",
         role := if (some "admin" : Option String) = some "admin" then "admin" else "user" }]) :=
  ⟨by decide, by decide, by decide, by decide,
    register_role_from_body [] "Mallory" "m@e.vil" "hunter22" (some "admin")
      (by decide) (by decide) (by decide) (by decide)⟩
